import Mathlib

/-!
# Verification of the authenticated-inference-and-alerting pipeline

Shallow embedding of the cardiac-attack-prediction repository: the React
client code (AuthContext in `src/unnamed/part_000`, `Login.jsx`,
`Signup.jsx`) is transcribed directly; the FastAPI backend components
(CredentialStore, AuthService, PredictionGateway, AlertDispatcher) are not
in the source tree, so they are modelled from the specification, each such
definition marked `Modelled from the spec:`.
-/

namespace Cardiac

/-! ## Data model -/

/-- A user record as it lives in the credential store: id, unique email,
salted password hash, full name, optional phone number. -/
structure User where
  id : Nat
  email : String
  passwordHash : String
  fullName : String
  phoneNumber : Option String
  deriving DecidableEq, Repr

/-- Public view of a user: everything except the password hash. -/
structure UserPublicView where
  id : Nat
  email : String
  fullName : String
  phoneNumber : Option String
  deriving DecidableEq, Repr

/-- A signed, time-bounded session token: subject (user id), expiry
instant, and signature. -/
structure SessionToken where
  subject : Nat
  expiry : Nat
  sig : Nat
  deriving DecidableEq, Repr

/-! ## Client: AuthContext (src/unnamed/part_000, lines 135-193) -/

/-- The axios default header state relevant here: the global
`Authorization` entry plus the untouched remainder of the header map. -/
structure HeadersMap where
  authorization : Option String
  other : List (String × String)
  deriving DecidableEq, Repr

/-- From `AuthProvider` (src/unnamed/part_000 lines 145-150): on each
render, if a token is present set
`axios.defaults.headers.common[Authorization] = Bearer <token>`, else
delete that entry. Other headers are not touched. -/
def configureAxiosDefaults (token : Option String) (headers : HeadersMap) : HeadersMap :=
  match token with
  | some t => { headers with authorization := some ("Bearer " ++ t) }
  | none => { headers with authorization := none }

/-- Client-side authentication state: the `user` state (response data of
`/auth/me`, kept opaque), the `token` state, and the token key of
`localStorage`. -/
structure ClientState where
  user : Option UserPublicView
  token : Option String
  storedToken : Option String
  deriving DecidableEq, Repr

/-- From `AuthProvider.logout` (src/unnamed/part_000 lines 179-183):
remove the token from localStorage, set token to null, set user to null. -/
def logout (s : ClientState) : ClientState :=
  { s with storedToken := none, token := none, user := none }

/-- From `AuthProvider.login` (src/unnamed/part_000 lines 173-177): store
the new token in localStorage and in the token state. -/
def clientLogin (s : ClientState) (newToken : String) : ClientState :=
  { s with storedToken := some newToken, token := some newToken }

/-- From `AuthProvider.fetchUser` (src/unnamed/part_000 lines 152-171):
if no token is present, do nothing; otherwise issue `GET /auth/me`, whose
outcome is passed in as `outcome`: on success store the returned user, on
any error call `logout`. -/
def fetchUser (s : ClientState) (outcome : Except String UserPublicView) : ClientState :=
  match s.token with
  | none => s
  | some _ =>
    match outcome with
    | .ok data => { s with user := some data }
    | .error _ => logout s

/-! ## Client: Login.jsx -/

/-- URL the login form posts to (`Login.jsx` line 22). -/
def loginUrl : String := "http://localhost:8000/auth/login"

/-- Content type of the login request (`Login.jsx` line 23). -/
def loginContentType : String := "application/x-www-form-urlencoded"

/-- Form-encoded parameter list built by `Login.handleSubmit`
(`Login.jsx` lines 18-20): `username` carries the email, `password` the
password. -/
def loginParams (email password : String) : List (String × String) :=
  [("username", email), ("password", password)]

/-- Successful login response body: `\x7baccess_token, token_type\x7d`. -/
structure TokenResponse where
  access_token : String
  token_type : String
  deriving DecidableEq, Repr

/-- Success path of `Login.handleSubmit` (`Login.jsx` line 26): the client
calls `login(response.data.access_token)`. -/
def handleLoginSuccess (s : ClientState) (resp : TokenResponse) : ClientState :=
  clientLogin s resp.access_token

/-- Error path of `Login.handleSubmit` (`Login.jsx` lines 28-31): the same
message is displayed for every error. -/
def loginFailureMessage (_err : String) : String :=
  "Invalid credentials. Please try again."

/-! ## Client: Signup.jsx -/

/-- The signup form state (`Signup.jsx` lines 7-12): exactly the fields
email, password, full_name, phone_number (phone left blank stays the empty
string). -/
structure SignupForm where
  email : String
  password : String
  full_name : String
  phone_number : String
  deriving DecidableEq, Repr

/-- URL the signup form posts to (`Signup.jsx` line 24). -/
def signupUrl : String := "http://localhost:8000/auth/signup"

/-- JSON body sent by `Signup.handleSubmit` (`Signup.jsx` line 24): the
`formData` object, i.e. exactly its four keys. -/
def signupBody (f : SignupForm) : List (String × String) :=
  [("email", f.email), ("password", f.password),
   ("full_name", f.full_name), ("phone_number", f.phone_number)]

/-! ## Backend: CredentialStore (modelled from the spec, section 4.1) -/

/-- Lower-casing of a string, character by character; used for the
case-insensitive email comparison the spec prescribes. -/
def lowerString (s : String) : String :=
  ⟨List.map Char.toLower s.data⟩

/-- Modelled from the spec: the CredentialStore is a durable keyed table
of User records; here a list of records. -/
abbrev Store : Type := List User

/-- Modelled from the spec: `findByEmail` is a case-insensitive lookup by
email (backend `backend/auth` code is not under src/). -/
def findByEmail (store : Store) (email : String) : Option User :=
  List.find? (fun u => lowerString u.email == lowerString email) store

/-- Whether some record in the store already uses this email
(case-insensitively). -/
def emailTaken (store : Store) (email : String) : Bool :=
  List.any store (fun u => lowerString u.email == lowerString email)

/-- Number of records in the store carrying this email
(case-insensitively). -/
def countEmail (store : Store) (email : String) : Nat :=
  (List.filter (fun u => lowerString u.email == lowerString email) store).length

/-- Email uniqueness invariant: no email is carried by two records. -/
def uniqueEmails (store : Store) : Prop :=
  ∀ e : String, countEmail store e ≤ 1

/-- Modelled from the spec: `verifyPassword` compares the stored hash to
the hash of the supplied plaintext; the hash function itself is an
external collaborator passed in as `hash`. It only returns a boolean. -/
def verifyPassword (hash : String → String) (u : User) (plaintext : String) : Bool :=
  u.passwordHash == hash plaintext

/-- The only creation-time failure of the store layer. -/
inductive CreateError where
  | duplicateEmail
  deriving DecidableEq, Repr

/-- The record persisted for a fresh signup: it holds the salted hash of
the password, never the plaintext; an empty phone field means no phone
number. -/
def newUser (hash : String → String) (nextId : Nat) (f : SignupForm) : User :=
  { id := nextId, email := f.email, passwordHash := hash f.password,
    fullName := f.full_name,
    phoneNumber := if f.phone_number = "" then none else some f.phone_number }

/-- Modelled from the spec: `createUser` is the atomic store-level
creation step (the storage layer serializes these writes and enforces the
unique constraint): if the email is already taken it fails with
`DuplicateEmail` and leaves the store unchanged; otherwise it persists the
one new record `newUser hash nextId f`. -/
def createUser (hash : String → String) (nextId : Nat) (store : Store)
    (f : SignupForm) : Except CreateError User × Store :=
  if emailTaken store f.email then (.error .duplicateEmail, store)
  else (.ok (newUser hash nextId f), store ++ [newUser hash nextId f])

/-! ## Backend: AuthService (modelled from the spec, section 4.2) -/

/-- Strip the password hash from a record: the public user view. -/
def publicView (u : User) : UserPublicView :=
  { id := u.id, email := u.email, fullName := u.fullName,
    phoneNumber := u.phoneNumber }

/-- Response of the signup endpoint. -/
inductive SignupResponse where
  | created (v : UserPublicView)
  | duplicateEmail
  | validationFailed
  deriving DecidableEq, Repr

/-- Modelled from the spec: `signup` validates the input against the
minimum-strength policy (kept abstract as the predicate `valid`), then
delegates creation to the CredentialStore and returns a view excluding the
password hash. -/
def signup (valid : SignupForm → Bool) (hash : String → String) (nextId : Nat)
    (store : Store) (f : SignupForm) : SignupResponse × Store :=
  if valid f then
    match createUser hash nextId store f with
    | (.error .duplicateEmail, s) => (.duplicateEmail, s)
    | (.ok u, s) => (.created (publicView u), s)
  else (.validationFailed, store)

/-- HTTP status of each signup outcome (spec, section 6). -/
def signupStatus : SignupResponse → Nat
  | .created _ => 201
  | .duplicateEmail => 409
  | .validationFailed => 422

/-- Modelled from the spec: the token signature is computed from the
signing key and the payload by an external signing primitive; any concrete
keyed mixing function stands in for it, since validation only ever
compares a carried signature with the recomputed one. -/
def computeSig (key subject expiry : Nat) : Nat :=
  (key + 7) * 1000003 + subject * 1009 + expiry

/-- Modelled from the spec: issuing a token signs the payload
(subject, expiry) with the server signing key. -/
def signToken (key subject expiry : Nat) : SessionToken :=
  { subject := subject, expiry := expiry, sig := computeSig key subject expiry }

/-- Fixed token lifetime (spec: now + fixed lifetime, e.g. 24 hours),
in seconds. -/
def tokenLifetime : Nat := 24 * 60 * 60

/-- Result of `login`. -/
inductive LoginResult where
  | success (tok : SessionToken)
  | invalidCredentials
  deriving DecidableEq, Repr

/-- Modelled from the spec: `login` looks up by email; if absent or the
password does not verify it fails uniformly with `InvalidCredentials`; on
success it issues a token with subject = user id and
expiry = now + fixed lifetime. -/
def login (hash : String → String) (key now : Nat) (store : Store)
    (email password : String) : LoginResult :=
  match findByEmail store email with
  | none => .invalidCredentials
  | some u =>
    if verifyPassword hash u password then
      .success (signToken key u.id (now + tokenLifetime))
    else .invalidCredentials

/-- Result of `validate`. -/
inductive ValidateResult where
  | ok (subject : Nat)
  | tokenInvalid
  | tokenExpired
  deriving DecidableEq, Repr

/-- Modelled from the spec: `validate` verifies signature integrity and
expiry: on a wrong signature it fails with `TokenInvalid`; on an otherwise
well-formed token whose expiry has passed (expiry ≤ now, since a token is
accepted only while its expiry is strictly in the future) it fails with
`TokenExpired`; otherwise it succeeds with the subject. -/
def validate (key : Nat) (tok : SessionToken) (now : Nat) : ValidateResult :=
  if tok.sig ≠ computeSig key tok.subject tok.expiry then .tokenInvalid
  else if tok.expiry ≤ now then .tokenExpired
  else .ok tok.subject

/-! ## Backend: PredictionGateway (modelled from the spec, section 4.3) -/

/-- Modelled from the spec: a PredictionRequest is an ordered set of named
numeric vitals. -/
abbrev Vitals : Type := List (String × ℚ)

/-- A declared valid range for one named vitals field. -/
structure VitalRange where
  name : String
  lo : ℚ
  hi : ℚ
  deriving DecidableEq, Repr

/-- Whether one vitals entry violates its declared range (fields without a
declared range are unconstrained). -/
def violatesRange (ranges : List VitalRange) (entry : String × ℚ) : Bool :=
  match List.find? (fun r => r.name == entry.1) ranges with
  | none => false
  | some r => !(decide (r.lo ≤ entry.2) && decide (entry.2 ≤ r.hi))

/-- Modelled from the spec: range validation of the vitals, returning the
names of the offending fields. -/
def checkVitals (ranges : List VitalRange) (v : Vitals) : List String :=
  List.map Prod.fst (List.filter (violatesRange ranges) v)

/-- A prediction result: risk probability in [0,1] and the derived
categorical label. -/
structure PredictionResult where
  riskProbability : ℚ
  riskLabel : String
  deriving DecidableEq, Repr

/-- Modelled from the spec: the risk label is derived from the probability
by fixed cut-points: below 0.33 low, below 0.70 medium, at or above 0.70
high. -/
def riskLabelOf (p : ℚ) : String :=
  if p < mkRat 33 100 then "low"
  else if p < mkRat 70 100 then "medium"
  else "high"

/-- The failure modes of `predict`. -/
inductive PredictError where
  | unauthorized
  | invalidVitals (fields : List String)
  | scorerUnavailable
  deriving DecidableEq, Repr

/-- Modelled from the spec: `predict` (1) validates the token and on
failure propagates Unauthorized and performs no scoring; (2) validates the
vitals ranges and on violation fails naming the offending fields, again
without scoring; (3) invokes the external Scorer (a black box passed in as
`scorer`; `none` models scorer failure or timeout, surfaced as
`ScorerUnavailable`, never defaulted); (4) on success derives the label
and returns the PredictionResult. The second component counts how many
times the Scorer was invoked. -/
def predict (key : Nat) (ranges : List VitalRange) (scorer : Vitals → Option ℚ)
    (tok : SessionToken) (now : Nat) (v : Vitals) :
    Except PredictError PredictionResult × Nat :=
  match validate key tok now with
  | .tokenInvalid => (.error .unauthorized, 0)
  | .tokenExpired => (.error .unauthorized, 0)
  | .ok _ =>
    match checkVitals ranges v with
    | [] =>
      match scorer v with
      | none => (.error .scorerUnavailable, 1)
      | some p => (.ok { riskProbability := p, riskLabel := riskLabelOf p }, 1)
    | bad => (.error (.invalidVitals bad), 0)

/-- HTTP status of each predict outcome (spec, section 6). -/
def predictStatus : Except PredictError PredictionResult → Nat
  | .ok _ => 200
  | .error .unauthorized => 401
  | .error (.invalidVitals _) => 422
  | .error .scorerUnavailable => 503

/-! ## Backend: AlertDispatcher (modelled from the spec, section 4.4) -/

/-- Outcome of alert evaluation. -/
inductive AlertOutcome where
  | notTriggered
  | sent
  | deliveryFailed (reason : String)
  deriving DecidableEq, Repr

/-- Modelled from the spec: the fixed alert threshold, 0.70. -/
def alertThreshold : ℚ := mkRat 70 100

/-- Modelled from the spec: the alert message contains the user identity
and the risk level. -/
def alertMessage (u : UserPublicView) (r : PredictionResult) : String :=
  "Cardiac risk alert for " ++ u.fullName ++ ": risk level " ++ r.riskLabel

/-- Modelled from the spec: `maybeAlert` triggers only when
`riskProbability ≥ 0.70`; when triggered it invokes the external Notifier
(passed in as `notifier`, returning whether delivery succeeded) with the
phone number; a missing phone number yields `DeliveryFailed`
(NoContactMethod); a Notifier delivery failure is caught and reported as
`DeliveryFailed`. -/
def maybeAlert (notifier : String → String → Bool) (u : UserPublicView)
    (r : PredictionResult) : AlertOutcome :=
  if r.riskProbability < alertThreshold then .notTriggered
  else
    match u.phoneNumber with
    | none => .deliveryFailed "NoContactMethod"
    | some phone =>
      if notifier phone (alertMessage u r) then .sent
      else .deliveryFailed "ProviderRejected"

/-- Modelled from the spec: the protected predict endpoint runs `predict`
and, only when it succeeded, evaluates `maybeAlert`; the HTTP response
(status and body) is built from the prediction outcome alone, the alert
outcome is out-of-band. -/
def handlePredict (key : Nat) (ranges : List VitalRange)
    (scorer : Vitals → Option ℚ) (notifier : String → String → Bool)
    (u : UserPublicView) (tok : SessionToken) (now : Nat) (v : Vitals) :
    (Nat × Except PredictError PredictionResult) × AlertOutcome :=
  match (predict key ranges scorer tok now v).1 with
  | .ok r => ((200, .ok r), maybeAlert notifier u r)
  | .error e => ((predictStatus (.error e), .error e), .notTriggered)

/-! ## Helper lemmas about the store -/

theorem countEmail_append (s1 s2 : Store) (e : String) :
    countEmail (s1 ++ s2) e = countEmail s1 e + countEmail s2 e := by
  unfold countEmail
  rw [List.filter_append, List.length_append]

theorem countEmail_zero_iff (s : Store) (e : String) :
    countEmail s e = 0 ↔ emailTaken s e = false := by
  unfold countEmail emailTaken
  rw [List.length_eq_zero, List.filter_eq_nil_iff, List.any_eq_false]

theorem countEmail_singleton (u : User) (e : String) :
    countEmail [u] e
      = if lowerString u.email == lowerString e then 1 else 0 := by
  unfold countEmail
  cases hb : (lowerString u.email == lowerString e) <;>
    simp [List.filter_cons, hb]

theorem countEmail_congr (s : Store) (e1 e2 : String)
    (h : lowerString e1 = lowerString e2) :
    countEmail s e1 = countEmail s e2 := by
  unfold countEmail
  rw [h]

/-! ## Claim theorems -/

/-- Claim C1: an alert is triggered iff `risk_probability ≥ 0.70`; the
boundary is inclusive: at probability exactly 0.70 the alert fires, and at
0.6999 it does not. -/
theorem alert_iff_threshold (notifier : String → String → Bool)
    (u : UserPublicView) (r : PredictionResult) :
    (maybeAlert notifier u r ≠ .notTriggered ↔
      alertThreshold ≤ r.riskProbability) ∧
    (r.riskProbability = mkRat 70 100 →
      maybeAlert notifier u r ≠ .notTriggered) ∧
    (r.riskProbability = mkRat 6999 10000 →
      maybeAlert notifier u r = .notTriggered) := by
  have hiff : maybeAlert notifier u r ≠ .notTriggered ↔
      alertThreshold ≤ r.riskProbability := by
    constructor
    · intro hne
      by_contra hlt
      rw [not_le] at hlt
      apply hne
      unfold maybeAlert
      rw [if_pos hlt]
    · intro hle
      unfold maybeAlert
      rw [if_neg (not_lt.mpr hle)]
      cases u.phoneNumber with
      | none => simp
      | some phone =>
        cases hn : notifier phone (alertMessage u r) <;> simp [hn]
  refine ⟨hiff, ?_, ?_⟩
  · intro hp
    apply hiff.mpr
    rw [hp]
    exact le_refl _
  · intro hp
    by_contra hne
    have hle := hiff.mp hne
    rw [hp] at hle
    exact absurd hle (by decide)

theorem alert_iff_threshold_witness :
    maybeAlert (fun _ _ => true) ⟨1, "a@x.com", "A", some "123"⟩
      ⟨mkRat 70 100, "high"⟩ ≠ .notTriggered ∧
    maybeAlert (fun _ _ => true) ⟨1, "a@x.com", "A", some "123"⟩
      ⟨mkRat 6999 10000, "medium"⟩ = .notTriggered :=
  ⟨(alert_iff_threshold _ _ _).2.1 rfl, (alert_iff_threshold _ _ _).2.2 rfl⟩

/-- Claim C2: when token validation fails, `predict` never invokes the
Scorer (the invocation count is 0) and returns Unauthorized. -/
theorem predict_no_scorer_on_invalid_token (key : Nat)
    (ranges : List VitalRange) (scorer : Vitals → Option ℚ)
    (tok : SessionToken) (now : Nat) (v : Vitals)
    (hfail : ∀ s, validate key tok now ≠ .ok s) :
    (predict key ranges scorer tok now v).2 = 0 ∧
    (predict key ranges scorer tok now v).1 = .error .unauthorized := by
  unfold predict
  cases hv : validate key tok now with
  | ok s => exact absurd hv (hfail s)
  | tokenInvalid => exact ⟨rfl, rfl⟩
  | tokenExpired => exact ⟨rfl, rfl⟩

theorem predict_no_scorer_on_invalid_token_witness :
    (predict 0 [] (fun _ => some (mkRat 1 2)) ⟨1, 10, 0⟩ 0 []).2 = 0 ∧
    (predict 0 [] (fun _ => some (mkRat 1 2)) ⟨1, 10, 0⟩ 0 []).1
      = .error .unauthorized :=
  predict_no_scorer_on_invalid_token 0 [] (fun _ => some (mkRat 1 2))
    ⟨1, 10, 0⟩ 0 []
    (fun s h => by
      rw [show validate 0 ⟨1, 10, 0⟩ 0 = .tokenInvalid from by decide] at h
      exact ValidateResult.noConfusion h)

/-- Claim C4: an issued (correctly signed) token validates successfully at
every instant strictly before its expiry, fails with `TokenExpired` at or
after its expiry, and any token whose signature does not match the signed
payload fails with `TokenInvalid`. -/
theorem validate_expiry_and_tamper (key subject expiry now : Nat) :
    (now < expiry →
      validate key (signToken key subject expiry) now = .ok subject) ∧
    (expiry ≤ now →
      validate key (signToken key subject expiry) now = .tokenExpired) ∧
    (∀ tok : SessionToken, tok.sig ≠ computeSig key tok.subject tok.expiry →
      validate key tok now = .tokenInvalid) := by
  refine ⟨?_, ?_, ?_⟩
  · intro h
    unfold validate signToken
    simp [not_le.mpr h]
  · intro h
    unfold validate signToken
    simp [h]
  · intro tok htok
    unfold validate
    simp [htok]

theorem validate_expiry_and_tamper_witness :
    validate 1 (signToken 1 2 10) 3 = .ok 2 ∧
    validate 1 (signToken 1 2 10) 10 = .tokenExpired ∧
    validate 1 ⟨2, 10, 0⟩ 3 = .tokenInvalid :=
  ⟨(validate_expiry_and_tamper 1 2 10 3).1 (by decide),
   (validate_expiry_and_tamper 1 2 10 10).2.1 (by decide),
   (validate_expiry_and_tamper 1 2 10 3).2.2 ⟨2, 10, 0⟩ (by decide)⟩

/-- Claim C7: the login form posts to `POST /auth/login` a form-encoded
body carrying the email under `username` and the password under
`password`; on success the client stores the access_token of the response
as its session token (state and localStorage). -/
theorem login_request_shape (email pw : String) (s : ClientState)
    (resp : TokenResponse) :
    List.lookup "username" (loginParams email pw) = some email ∧
    List.lookup "password" (loginParams email pw) = some pw ∧
    loginUrl = "http://localhost:8000/auth/login" ∧
    loginContentType = "application/x-www-form-urlencoded" ∧
    (handleLoginSuccess s resp).token = some resp.access_token ∧
    (handleLoginSuccess s resp).storedToken = some resp.access_token :=
  ⟨rfl, rfl, rfl, rfl, rfl, rfl⟩

/-- Claim C9: after every render of AuthProvider, the global Authorization
header of the shared axios client is `Bearer <token>` exactly when a token
is present and absent when the token is null; other headers are
untouched. -/
theorem auth_header_tracks_token (token : Option String) (h : HeadersMap) :
    (configureAxiosDefaults token h).authorization
      = Option.map (fun t => "Bearer " ++ t) token ∧
    (configureAxiosDefaults token h).other = h.other := by
  cases token <;> exact ⟨rfl, rfl⟩

/-- Claim C10: when a stored token is present and `GET /auth/me` fails for
any reason, the client logs out: the stored token is removed and both
token and user state become null. -/
theorem me_failure_clears_session (s : ClientState) (t e : String)
    (htok : s.token = some t) :
    fetchUser s (.error e)
      = { user := none, token := none, storedToken := none } := by
  unfold fetchUser
  rw [htok]
  rfl

theorem me_failure_clears_session_witness :
    fetchUser ⟨none, some "tk", some "tk"⟩ (.error "network")
      = { user := none, token := none, storedToken := none } :=
  me_failure_clears_session ⟨none, some "tk", some "tk"⟩ "tk" "network" rfl

/-- Claim C3: the HTTP response of the predict endpoint does not depend on
the Notifier at all; when prediction succeeds it is `200` with the
PredictionResult regardless of alert delivery; and a Notifier delivery
failure on a triggered alert is caught and reported as `DeliveryFailed`. -/
theorem notifier_failure_isolated (key : Nat) (ranges : List VitalRange)
    (scorer : Vitals → Option ℚ) (u : UserPublicView) (tok : SessionToken)
    (now : Nat) (v : Vitals) (n1 n2 : String → String → Bool) :
    ((handlePredict key ranges scorer n1 u tok now v).1 =
      (handlePredict key ranges scorer n2 u tok now v).1) ∧
    (∀ r, (predict key ranges scorer tok now v).1 = .ok r →
      (handlePredict key ranges scorer n1 u tok now v).1 = (200, .ok r)) ∧
    (∀ r, (predict key ranges scorer tok now v).1 = .ok r →
      alertThreshold ≤ r.riskProbability → (∀ p m, n1 p m = false) →
      (handlePredict key ranges scorer n1 u tok now v).2
        = .deliveryFailed "NoContactMethod" ∨
      (handlePredict key ranges scorer n1 u tok now v).2
        = .deliveryFailed "ProviderRejected") := by
  refine ⟨?_, ?_, ?_⟩
  · unfold handlePredict
    cases hpr : (predict key ranges scorer tok now v).1 <;> rfl
  · intro r hr
    unfold handlePredict
    rw [hr]
  · intro r hr hth hfail
    unfold handlePredict
    rw [hr]
    show maybeAlert n1 u r = _ ∨ maybeAlert n1 u r = _
    unfold maybeAlert
    rw [if_neg (not_lt.mpr hth)]
    cases u.phoneNumber with
    | none => exact Or.inl rfl
    | some phone => simp [hfail]

theorem notifier_failure_isolated_witness :
    (handlePredict 0 [] (fun _ => some (mkRat 82 100)) (fun _ _ => false)
      ⟨1, "a@x.com", "A", some "123"⟩ (signToken 0 1 10) 0 []).1
      = (200, .ok ⟨mkRat 82 100, "high"⟩) :=
  (notifier_failure_isolated 0 [] (fun _ => some (mkRat 82 100))
      ⟨1, "a@x.com", "A", some "123"⟩ (signToken 0 1 10) 0 []
      (fun _ _ => false) (fun _ _ => false)).2.1
    ⟨mkRat 82 100, "high"⟩ rfl

/-- Claim C5: every failed login — unknown email or wrong password —
surfaces the same undifferentiated `InvalidCredentials` failure, and the
client displays the identical message for every failed login. -/
theorem login_uniform_failure (hash : String → String) (key now : Nat)
    (store : Store) (email pw : String) :
    (findByEmail store email = none →
      login hash key now store email pw = .invalidCredentials) ∧
    (∀ u, findByEmail store email = some u →
      verifyPassword hash u pw = false →
      login hash key now store email pw = .invalidCredentials) ∧
    (∀ e1 e2 : String, loginFailureMessage e1 = loginFailureMessage e2) := by
  refine ⟨?_, ?_, fun _ _ => rfl⟩
  · intro h
    unfold login
    rw [h]
  · intro u hu hv
    unfold login
    rw [hu]
    simp [hv]

theorem login_uniform_failure_witness :
    login (fun p => p) 0 0 [] "a@x.com" "pw" = .invalidCredentials ∧
    login (fun _ => "other") 0 0 [⟨1, "a@x.com", "H", "A", none⟩]
      "a@x.com" "pw" = .invalidCredentials :=
  ⟨(login_uniform_failure (fun p => p) 0 0 [] "a@x.com" "pw").1 rfl,
   (login_uniform_failure (fun _ => "other") 0 0
      [⟨1, "a@x.com", "H", "A", none⟩] "a@x.com" "pw").2.1
     ⟨1, "a@x.com", "H", "A", none⟩ rfl rfl⟩

/-- Claim C6: for two signups with the same email (case-insensitively)
against a store not yet holding that email, whichever the storage layer
serializes first succeeds and the second fails with `DuplicateEmail`; the
final store holds exactly one record with that email; and every
`createUser` step preserves email uniqueness. -/
theorem concurrent_signup_exclusive (hash : String → String) (id1 id2 : Nat)
    (store : Store) (f g : SignupForm)
    (hsame : lowerString f.email = lowerString g.email)
    (hfree : emailTaken store f.email = false) :
    (createUser hash id1 store f).1 = .ok (newUser hash id1 f) ∧
    (createUser hash id2 (createUser hash id1 store f).2 g).1
      = .error .duplicateEmail ∧
    countEmail (createUser hash id2 (createUser hash id1 store f).2 g).2
      f.email = 1 ∧
    (∀ s : Store, ∀ n : Nat, ∀ h0 : SignupForm, uniqueEmails s →
      uniqueEmails (createUser hash n s h0).2) := by
  have h1 : createUser hash id1 store f
      = (.ok (newUser hash id1 f), store ++ [newUser hash id1 f]) := by
    unfold createUser
    rw [hfree]
    rfl
  have h1snd : (createUser hash id1 store f).2
      = store ++ [newUser hash id1 f] := by rw [h1]
  have h2 : emailTaken (store ++ [newUser hash id1 f]) g.email = true := by
    unfold emailTaken
    rw [List.any_append]
    have hm : (lowerString (newUser hash id1 f).email
        == lowerString g.email) = true := by
      show (lowerString f.email == lowerString g.email) = true
      rw [hsame]
      exact beq_self_eq_true _
    simp [hm]
  have h3 : createUser hash id2 (store ++ [newUser hash id1 f]) g
      = (.error .duplicateEmail, store ++ [newUser hash id1 f]) := by
    unfold createUser
    rw [h2]
    rfl
  refine ⟨?_, ?_, ?_, ?_⟩
  · rw [h1]
  · rw [h1snd, h3]
  · rw [h1snd, h3]
    show countEmail (store ++ [newUser hash id1 f]) f.email = 1
    rw [countEmail_append, (countEmail_zero_iff store f.email).mpr hfree,
      countEmail_singleton]
    have hm : (lowerString (newUser hash id1 f).email
        == lowerString f.email) = true := beq_self_eq_true _
    rw [hm]
    rfl
  · intro s n h0 hu
    cases ht : emailTaken s h0.email with
    | true =>
      have hc : (createUser hash n s h0).2 = s := by
        unfold createUser
        rw [ht]
        rfl
      intro e
      rw [hc]
      exact hu e
    | false =>
      have hc : (createUser hash n s h0).2 = s ++ [newUser hash n h0] := by
        unfold createUser
        rw [ht]
        rfl
      intro e
      rw [hc, countEmail_append, countEmail_singleton]
      cases hb : (lowerString (newUser hash n h0).email == lowerString e) with
      | false => simpa using hu e
      | true =>
        have hbe : lowerString h0.email = lowerString e := eq_of_beq hb
        have hz : countEmail s e = 0 := by
          rw [← countEmail_congr s h0.email e hbe]
          exact (countEmail_zero_iff s h0.email).mpr ht
        simp [hz]

theorem concurrent_signup_exclusive_witness :
    (createUser (fun p => p) 2 (createUser (fun p => p) 1 []
        ⟨"a@x.com", "secret123", "A", ""⟩).2
        ⟨"a@x.com", "secret123", "A", ""⟩).1 = .error .duplicateEmail ∧
    countEmail (createUser (fun p => p) 2 (createUser (fun p => p) 1 []
        ⟨"a@x.com", "secret123", "A", ""⟩).2
        ⟨"a@x.com", "secret123", "A", ""⟩).2 "a@x.com" = 1 :=
  ⟨(concurrent_signup_exclusive (fun p => p) 1 2 []
      ⟨"a@x.com", "secret123", "A", ""⟩ ⟨"a@x.com", "secret123", "A", ""⟩
      rfl rfl).2.1,
   (concurrent_signup_exclusive (fun p => p) 1 2 []
      ⟨"a@x.com", "secret123", "A", ""⟩ ⟨"a@x.com", "secret123", "A", ""⟩
      rfl rfl).2.2.1⟩

/-- Claim C8: the signup form posts to `POST /auth/signup` a body whose
keys are exactly email, password, full_name, phone_number; the endpoint
answers 201 with a public user view on success, 409 on DuplicateEmail, and
422 on ValidationError. -/
theorem signup_shape_and_statuses (f : SignupForm)
    (valid : SignupForm → Bool) (hash : String → String) (n : Nat)
    (store : Store) :
    List.map Prod.fst (signupBody f)
      = ["email", "password", "full_name", "phone_number"] ∧
    signupUrl = "http://localhost:8000/auth/signup" ∧
    (valid f = false →
      (signup valid hash n store f).1 = .validationFailed ∧
      signupStatus (signup valid hash n store f).1 = 422) ∧
    (valid f = true → emailTaken store f.email = true →
      (signup valid hash n store f).1 = .duplicateEmail ∧
      signupStatus (signup valid hash n store f).1 = 409) ∧
    (valid f = true → emailTaken store f.email = false →
      (signup valid hash n store f).1 = .created (publicView (newUser hash n f)) ∧
      signupStatus (signup valid hash n store f).1 = 201) := by
  refine ⟨rfl, rfl, ?_, ?_, ?_⟩
  · intro hv
    have hs : signup valid hash n store f = (.validationFailed, store) := by
      unfold signup
      rw [hv]
      rfl
    rw [hs]
    exact ⟨rfl, rfl⟩
  · intro hv ht
    have hs : signup valid hash n store f = (.duplicateEmail, store) := by
      unfold signup createUser
      rw [hv, ht]
      rfl
    rw [hs]
    exact ⟨rfl, rfl⟩
  · intro hv ht
    have hs : signup valid hash n store f
        = (.created (publicView (newUser hash n f)),
           store ++ [newUser hash n f]) := by
      unfold signup createUser
      rw [hv, ht]
      rfl
    rw [hs]
    exact ⟨rfl, rfl⟩

theorem signup_shape_and_statuses_witness :
    (signup (fun _ => false) (fun p => p) 1 []
      ⟨"a@x.com", "pw", "A", ""⟩).1 = .validationFailed ∧
    (signup (fun _ => true) (fun p => p) 1 []
      ⟨"a@x.com", "pw", "A", ""⟩).1
      = .created (publicView (newUser (fun p => p) 1
          ⟨"a@x.com", "pw", "A", ""⟩)) :=
  ⟨((signup_shape_and_statuses ⟨"a@x.com", "pw", "A", ""⟩ (fun _ => false)
      (fun p => p) 1 []).2.2.1 rfl).1,
   ((signup_shape_and_statuses ⟨"a@x.com", "pw", "A", ""⟩ (fun _ => true)
      (fun p => p) 1 []).2.2.2.2 rfl rfl).1⟩

end Cardiac
